import Mathlib

/-!
Shallow embedding of the two presentational components of this repository:

* `getIconName` / `BottomTabIcon` (bottom-tab icon mapper, `src/unnamed/part_000`)
* `NuggetCardInteraction` (card interaction bar,
  `src/shared-components/cards/nugget-card/components/NuggetCardInteraction.tsx`)

Both components are pure functions from typed props to a declarative view
tree.  External collaborators (icon registry, translation function `t`,
theme color provider) are modelled as parameters; theme constants whose
defining file is not part of this fragment are modelled from the spec.
Callbacks are modelled as optional values of an arbitrary type `α`; a tap
on a control emits the list of callback invocations it causes.
-/

namespace DesignOnly

/-- Modelled from the spec: the theme config file `config/theme/ui` is not part
of this fragment; the spec only requires a fixed theme-defined default icon
size constant (`ui.icon.large`).  Its concrete value is immaterial to every
claim. -/
def uiIconLarge : Nat := 24

/-- Modelled from the spec: theme spacing scale constant `spacing.m`
(the file `config/theme` is not part of this fragment).  The concrete value is
immaterial; only its identity as the normal leading margin matters. -/
def spacingM : Nat := 16

/-- Modelled from the spec: theme spacing scale constant `spacing.s`. -/
def spacingS : Nat := 8

/-- Modelled from the spec: theme spacing scale constant `spacing.xs`. -/
def spacingXs : Nat := 4

/-- Modelled from the spec: theme spacing scale constant `spacing.xxs`. -/
def spacingXxs : Nat := 2

/-- Modelled from the spec: theme spacing scale constant `spacing.l`. -/
def spacingL : Nat := 24

/-- Embeds `getIconName` of `src/unnamed/part_000` (lines 18-31): the switch
from a tab kind string to an Ionicons glyph id, with the `default` branch
returning the fallback glyph `help-circle`.  The TS `switch` over string
literals is embedded as a chain of string equality tests. -/
def getIconName (name : String) : String :=
  if name = "home" then "home"
  else if name = "folder" then "folder"
  else if name = "chat" then "chatbubble"
  else if name = "ai" then "hardware-chip"
  else "help-circle"

/-- An `Ionicons` (or `MaterialCommunityIcons`) glyph element as configured by
this fragment: glyph id, color token, size, and an optional rotate transform
in degrees. -/
structure IconGlyph where
  name : String
  color : String
  size : Nat
  rotateDeg : Option Int
deriving Repr, DecidableEq

/-- The view produced by `BottomTabIcon`: an accessible container of role
`image` hosting a single icon glyph.  The optional style override is kept
opaque (an arbitrary payload type `σ`). -/
structure BottomTabIconView (σ : Type) where
  style : Option σ
  accessible : Bool
  accessibilityRole : String
  accessibilityLabel : String
  icon : IconGlyph
deriving Repr, DecidableEq

/-- Embeds the `BottomTabIcon` component of `src/unnamed/part_000`
(lines 41-58).  `size = ui.icon.large` is the TS destructuring default,
embedded as `Option.getD`; the container carries `accessible={true}`,
role `image`, and the raw tab kind as accessibility label, and hosts the
resolved glyph. -/
def BottomTabIcon (σ : Type) (name : String) (color : String)
    (size : Option Nat) (style : Option σ) : BottomTabIconView σ :=
  { style := style
    accessible := true
    accessibilityRole := "image"
    accessibilityLabel := name
    icon :=
      { name := getIconName name
        color := color
        size := size.getD uiIconLarge
        rotateDeg := none } }

/-- The props interface `NuggetCardInteractionProps` (lines 9-19 of
`NuggetCardInteraction.tsx`).  TS `number` counters are embedded as `Int`
(negative values are reachable only by bypassing the type system but the
runtime code must still handle them); the four optional callbacks are
`Option α` for an arbitrary callback type `α`; the optional boolean prop
`hideCommentButton` is `Option Bool` so that omission is distinguishable
from an explicit value. -/
structure NuggetCardInteractionProps (α : Type) where
  helpfulCount : Int
  commentCount : Int
  isHelpful : Bool
  isSaved : Bool
  onHelpfulPress : Option α
  onCommentPress : Option α
  onSharePress : Option α
  onSavePress : Option α
  hideCommentButton : Option Bool
deriving Repr, DecidableEq

/-- Theme colors consumed through `useThemeColor` (the hook itself is outside
this fragment and is a parameter of the render): only the three tokens the
component reads. -/
structure ThemeColors where
  primary : String
  textSecondary : String
  divider : String
deriving Repr, DecidableEq

/-- A rendered `TouchableOpacity` control of the interaction bar: its press
handler, accessibility wiring, icon configuration, optional text content and
effective leading margin. -/
structure RenderedControl (α : Type) where
  onPress : Option α
  accessible : Bool
  accessibilityRole : String
  accessibilityLabel : String
  accessibilitySelected : Option Bool
  icon : IconGlyph
  text : Option String
  marginLeft : Nat
deriving Repr, DecidableEq

/-- The view tree produced by `NuggetCardInteraction`: a divider-topped row
with an optional comment control, and the helpful, share and save controls. -/
structure InteractionBar (α : Type) where
  borderTopColor : String
  commentButton : Option (RenderedControl α)
  helpfulButton : RenderedControl α
  shareButton : RenderedControl α
  saveButton : RenderedControl α
deriving Repr, DecidableEq

/-- Embeds the `NuggetCardInteraction` component (lines 38-133 of
`NuggetCardInteraction.tsx`).  `colors` stands for `useThemeColor()` and `t`
for the i18n translation function, both external collaborators.  The TS
destructuring default `hideCommentButton = false` is `Option.getD false`.
JSX text interpolation (template literals and adjacent text children joined
by a literal space) is embedded as string concatenation; the conditional
style `[styles.actionButton, hideCommentButton && marginLeft 0]` is the
effective margin `if hidden then 0 else spacing.m`. -/
def NuggetCardInteraction (α : Type) (colors : ThemeColors)
    (t : String → String) (p : NuggetCardInteractionProps α) :
    InteractionBar α :=
  { borderTopColor := colors.divider
    commentButton :=
      if p.hideCommentButton.getD false then none
      else some
        { onPress := p.onCommentPress
          accessible := true
          accessibilityRole := "button"
          accessibilityLabel :=
            (if p.commentCount > 0 then toString p.commentCount
             else t "nugget.interaction.noComments")
              ++ " " ++ t "nugget.interaction.comments"
          accessibilitySelected := none
          icon :=
            { name := "chatbubble-outline"
              color := colors.textSecondary
              size := 20
              rotateDeg := none }
          text := some (if p.commentCount > 0 then toString p.commentCount else "")
          marginLeft := 0 }
    helpfulButton :=
      { onPress := p.onHelpfulPress
        accessible := true
        accessibilityRole := "button"
        accessibilityLabel :=
          if p.isHelpful then t "nugget.interaction.helpful"
          else t "nugget.interaction.markHelpful"
        accessibilitySelected := some p.isHelpful
        icon :=
          { name := if p.isHelpful then "thumb-up" else "thumb-up-outline"
            color := if p.isHelpful then colors.primary else colors.textSecondary
            size := 20
            rotateDeg := none }
        text := some
          (t "nugget.interaction.thatHelps" ++ " " ++
            (if p.helpfulCount > 0 then "(" ++ toString p.helpfulCount ++ ")" else ""))
        marginLeft := if p.hideCommentButton.getD false then 0 else spacingM }
    shareButton :=
      { onPress := p.onSharePress
        accessible := true
        accessibilityRole := "button"
        accessibilityLabel := t "nugget.interaction.share"
        accessibilitySelected := none
        icon :=
          { name := "paper-plane-outline"
            color := colors.textSecondary
            size := 20
            rotateDeg := some 20 }
        text := none
        marginLeft := spacingL }
    saveButton :=
      { onPress := p.onSavePress
        accessible := true
        accessibilityRole := "button"
        accessibilityLabel :=
          if p.isSaved then t "profile.nuggetSaved" else t "nugget.interaction.save"
        accessibilitySelected := some p.isSaved
        icon :=
          { name := if p.isSaved then "bookmark" else "bookmark-outline"
            color := if p.isSaved then colors.primary else colors.textSecondary
            size := 20
            rotateDeg := none }
        text := none
        marginLeft := spacingL } }

/-- A user tap on a rendered control: `TouchableOpacity` invokes `onPress`
once when it is a function and does nothing when the prop is `undefined`.
The result is the list of callback invocations the tap causes. -/
def tapControl (α : Type) (c : RenderedControl α) : List α :=
  c.onPress.toList

/-- Concrete translation function used by witnesses: tags its key, so distinct
keys produce distinct localized phrases. -/
def tWitness (key : String) : String := "loc:" ++ key

/-- Concrete theme colors used by witnesses. -/
def colorsWitness : ThemeColors :=
  { primary := "#FF6B00", textSecondary := "#707070", divider := "#E0E0E0" }

/-- Concrete props used by witnesses: all four callbacks supplied (callback
type `Nat`, values 0-3), counts 5 and 3, both flags set, comment button shown
explicitly. -/
def propsWitness : NuggetCardInteractionProps Nat :=
  { helpfulCount := 3
    commentCount := 5
    isHelpful := true
    isSaved := true
    onHelpfulPress := some 0
    onCommentPress := some 1
    onSharePress := some 2
    onSavePress := some 3
    hideCommentButton := some false }

/-- C1: the tab-kind-to-glyph mapping is a pure total function: each of the
four defined tab kinds maps to its documented fixed glyph, and every other
input string yields the fixed fallback glyph `help-circle` rather than
failing. -/
theorem c1_getIconName_total_table :
    getIconName "home" = "home" ∧
    getIconName "folder" = "folder" ∧
    getIconName "chat" = "chatbubble" ∧
    getIconName "ai" = "hardware-chip" ∧
    ∀ s : String, s ≠ "home" → s ≠ "folder" → s ≠ "chat" → s ≠ "ai" →
      getIconName s = "help-circle" := by
  refine ⟨rfl, rfl, rfl, rfl, ?_⟩
  intro s h1 h2 h3 h4
  simp [getIconName, h1, h2, h3, h4]

/-- Witness for C1: the out-of-domain input `"settings"` resolves to the
fallback glyph. -/
theorem c1_getIconName_total_table_witness :
    getIconName "settings" = "help-circle" :=
  c1_getIconName_total_table.2.2.2.2 "settings"
    (by decide) (by decide) (by decide) (by decide)

/-- C7: for every tab kind (and any color, size and style override), the
accessibility label of the rendered tab icon view is the literal tab-kind
string that was passed in, never the resolved glyph id. -/
theorem c7_tab_icon_label_is_tab_kind (σ : Type) (name color : String)
    (size : Option Nat) (style : Option σ) :
    (BottomTabIcon σ name color size style).accessibilityLabel = name ∧
    (BottomTabIcon σ name color size style).icon.name = getIconName name := by
  exact ⟨rfl, rfl⟩

/-- C2: tapping any control of the interaction bar invokes its supplied
callback exactly once per tap (`[cb]`), and is a safe no-op (`[]`) when the
callback prop is omitted, for all four controls; `Option.toList` sends
`some cb` to the one-invocation list and `none` to the empty one. -/
theorem c2_tap_invokes_callback_once (α : Type) (colors : ThemeColors)
    (t : String → String) (p : NuggetCardInteractionProps α) :
    tapControl α (NuggetCardInteraction α colors t p).helpfulButton =
      p.onHelpfulPress.toList ∧
    tapControl α (NuggetCardInteraction α colors t p).shareButton =
      p.onSharePress.toList ∧
    tapControl α (NuggetCardInteraction α colors t p).saveButton =
      p.onSavePress.toList ∧
    (∀ c : RenderedControl α,
      (NuggetCardInteraction α colors t p).commentButton = some c →
        tapControl α c = p.onCommentPress.toList) ∧
    (∀ cb : α, (some cb : Option α).toList = [cb]) ∧
    (none : Option α).toList = [] := by
  refine ⟨rfl, rfl, rfl, ?_, fun cb => rfl, rfl⟩
  intro c hc
  by_cases h : p.hideCommentButton.getD false
  · simp [NuggetCardInteraction, h] at hc
  · simp [NuggetCardInteraction, h] at hc
    rw [← hc]
    rfl

/-- Witness for C2: with all four callbacks supplied (values 0-3), a tap on
each control emits exactly that one callback. -/
theorem c2_tap_invokes_callback_once_witness :
    tapControl Nat
      (NuggetCardInteraction Nat colorsWitness tWitness propsWitness).saveButton
      = [3] ∧
    (NuggetCardInteraction Nat colorsWitness tWitness
      propsWitness).commentButton.map (tapControl Nat) = some [1] := by
  have h := c2_tap_invokes_callback_once Nat colorsWitness tWitness propsWitness
  refine ⟨h.2.2.1, ?_⟩
  cases hc : (NuggetCardInteraction Nat colorsWitness tWitness
      propsWitness).commentButton with
  | none => simp [NuggetCardInteraction, propsWitness] at hc
  | some c => simp [h.2.2.2.1 c hc, propsWitness]

/-- C3: the mark-helpful control renders the marked variant when `isHelpful`
is true (filled `thumb-up` glyph, primary/accent color, localized
`already helpful` label key, selected-state true) and the unmarked variant
when it is false (outline glyph, secondary color, localized
`mark as helpful` label key, selected-state false). -/
theorem c3_helpful_control_variants (α : Type) (colors : ThemeColors)
    (t : String → String) (p : NuggetCardInteractionProps α) :
    (p.isHelpful = true →
      (NuggetCardInteraction α colors t p).helpfulButton.icon.name = "thumb-up" ∧
      (NuggetCardInteraction α colors t p).helpfulButton.icon.color = colors.primary ∧
      (NuggetCardInteraction α colors t p).helpfulButton.accessibilityLabel =
        t "nugget.interaction.helpful" ∧
      (NuggetCardInteraction α colors t p).helpfulButton.accessibilitySelected =
        some true) ∧
    (p.isHelpful = false →
      (NuggetCardInteraction α colors t p).helpfulButton.icon.name = "thumb-up-outline" ∧
      (NuggetCardInteraction α colors t p).helpfulButton.icon.color = colors.textSecondary ∧
      (NuggetCardInteraction α colors t p).helpfulButton.accessibilityLabel =
        t "nugget.interaction.markHelpful" ∧
      (NuggetCardInteraction α colors t p).helpfulButton.accessibilitySelected =
        some false) := by
  constructor
  · intro h
    simp [NuggetCardInteraction, h]
  · intro h
    simp [NuggetCardInteraction, h]

/-- Witness for C3: with `isHelpful = true` the control is the filled,
accent-colored, selected marked variant. -/
theorem c3_helpful_control_variants_witness :
    (NuggetCardInteraction Nat colorsWitness tWitness
      propsWitness).helpfulButton.icon.name = "thumb-up" ∧
    (NuggetCardInteraction Nat colorsWitness tWitness
      propsWitness).helpfulButton.accessibilitySelected = some true := by
  have h := (c3_helpful_control_variants Nat colorsWitness tWitness
    propsWitness).1 rfl
  exact ⟨h.1, h.2.2.2⟩

/-- C4: the save control renders the filled bookmark glyph with accent color
and the localized `already saved` label key when `isSaved` is true, the
outline bookmark with secondary color and the localized `save` key when it is
false, and its accessibility selected-state equals `isSaved` in both cases. -/
theorem c4_save_control_variants (α : Type) (colors : ThemeColors)
    (t : String → String) (p : NuggetCardInteractionProps α) :
    (p.isSaved = true →
      (NuggetCardInteraction α colors t p).saveButton.icon.name = "bookmark" ∧
      (NuggetCardInteraction α colors t p).saveButton.icon.color = colors.primary ∧
      (NuggetCardInteraction α colors t p).saveButton.accessibilityLabel =
        t "profile.nuggetSaved") ∧
    (p.isSaved = false →
      (NuggetCardInteraction α colors t p).saveButton.icon.name = "bookmark-outline" ∧
      (NuggetCardInteraction α colors t p).saveButton.icon.color = colors.textSecondary ∧
      (NuggetCardInteraction α colors t p).saveButton.accessibilityLabel =
        t "nugget.interaction.save") ∧
    (NuggetCardInteraction α colors t p).saveButton.accessibilitySelected =
      some p.isSaved := by
  refine ⟨?_, ?_, rfl⟩
  · intro h
    simp [NuggetCardInteraction, h]
  · intro h
    simp [NuggetCardInteraction, h]

/-- Witness for C4: with `isSaved = true` the save control is the filled
bookmark with the `already saved` label and selected-state true. -/
theorem c4_save_control_variants_witness :
    (NuggetCardInteraction Nat colorsWitness tWitness
      propsWitness).saveButton.icon.name = "bookmark" ∧
    (NuggetCardInteraction Nat colorsWitness tWitness
      propsWitness).saveButton.accessibilitySelected = some true := by
  have h := c4_save_control_variants Nat colorsWitness tWitness propsWitness
  exact ⟨(h.1 rfl).1, h.2.2⟩

/-- C5: with `hideCommentButton = true` the comment control is absent and the
mark-helpful control's leading margin collapses to zero; with
`hideCommentButton = false` the comment control is present and the
mark-helpful control keeps its normal leading margin `spacing.m`. -/
theorem c5_hide_comment_button (α : Type) (colors : ThemeColors)
    (t : String → String) (p : NuggetCardInteractionProps α) :
    (p.hideCommentButton = some true →
      (NuggetCardInteraction α colors t p).commentButton = none ∧
      (NuggetCardInteraction α colors t p).helpfulButton.marginLeft = 0) ∧
    (p.hideCommentButton = some false →
      (∃ c, (NuggetCardInteraction α colors t p).commentButton = some c) ∧
      (NuggetCardInteraction α colors t p).helpfulButton.marginLeft = spacingM) := by
  constructor
  · intro h
    simp [NuggetCardInteraction, h]
  · intro h
    constructor
    · simp [NuggetCardInteraction, h]
    · simp [NuggetCardInteraction, h]

/-- Witness for C5: hiding the comment button on the witness props removes
the comment control and zeroes the helpful control's margin; not hiding it
keeps the control and the `spacing.m` margin. -/
theorem c5_hide_comment_button_witness :
    ((NuggetCardInteraction Nat colorsWitness tWitness
        { propsWitness with hideCommentButton := some true }).commentButton = none ∧
      (NuggetCardInteraction Nat colorsWitness tWitness
        { propsWitness with hideCommentButton := some true
          }).helpfulButton.marginLeft = 0) ∧
    (NuggetCardInteraction Nat colorsWitness tWitness
      propsWitness).helpfulButton.marginLeft = spacingM := by
  refine ⟨(c5_hide_comment_button Nat colorsWitness tWitness
    { propsWitness with hideCommentButton := some true }).1 rfl, ?_⟩
  exact ((c5_hide_comment_button Nat colorsWitness tWitness propsWitness).2 rfl).2

/-- C6: in the rendered comment control, a zero count renders as the empty
string (not "0") and its accessibility label substitutes the localized
`no comments` phrase for the count; a positive count renders as its decimal
numeral and the label leads with that numeral; both labels end with the
localized `comments` noun. -/
theorem c6_comment_count_rendering (α : Type) (colors : ThemeColors)
    (t : String → String) (p : NuggetCardInteractionProps α)
    (c : RenderedControl α)
    (hc : (NuggetCardInteraction α colors t p).commentButton = some c) :
    (p.commentCount = 0 →
      c.text = some "" ∧
      c.accessibilityLabel =
        t "nugget.interaction.noComments" ++ " " ++ t "nugget.interaction.comments") ∧
    (0 < p.commentCount →
      c.text = some (toString p.commentCount) ∧
      c.accessibilityLabel =
        toString p.commentCount ++ " " ++ t "nugget.interaction.comments") := by
  by_cases h : p.hideCommentButton.getD false
  · simp [NuggetCardInteraction, h] at hc
  · simp [NuggetCardInteraction, h] at hc
    constructor
    · intro h0
      rw [← hc]
      simp [h0]
    · intro h0
      rw [← hc]
      simp [h0]

/-- Witness for C6: with `commentCount = 5` the count text is "5" and the
label is "5" followed by the localized comments noun. -/
theorem c6_comment_count_rendering_witness :
    (NuggetCardInteraction Nat colorsWitness tWitness
        propsWitness).commentButton.map RenderedControl.text = some (some "5") ∧
    (NuggetCardInteraction Nat colorsWitness tWitness
        propsWitness).commentButton.map RenderedControl.accessibilityLabel =
      some "5 loc:nugget.interaction.comments" := by
  cases hc : (NuggetCardInteraction Nat colorsWitness tWitness
      propsWitness).commentButton with
  | none => simp [NuggetCardInteraction, propsWitness] at hc
  | some c =>
      have h := (c6_comment_count_rendering Nat colorsWitness tWitness
        propsWitness c hc).2 (by decide)
      simp [h.1, h.2]
      exact ⟨by decide, by decide⟩

/-- C8: the mark-helpful control's label text is the localized `that helps`
phrase followed by the count in parentheses exactly when `helpfulCount > 0`,
and carries no parenthetical count when `helpfulCount = 0`. -/
theorem c8_helpful_label_count (α : Type) (colors : ThemeColors)
    (t : String → String) (p : NuggetCardInteractionProps α) :
    (0 < p.helpfulCount →
      (NuggetCardInteraction α colors t p).helpfulButton.text =
        some (t "nugget.interaction.thatHelps" ++ " " ++
          ("(" ++ toString p.helpfulCount ++ ")"))) ∧
    (p.helpfulCount = 0 →
      (NuggetCardInteraction α colors t p).helpfulButton.text =
        some (t "nugget.interaction.thatHelps" ++ " ")) := by
  constructor
  · intro h
    simp [NuggetCardInteraction, h]
  · intro h
    simp [NuggetCardInteraction, h]

/-- Witness for C8: with `helpfulCount = 3` the label ends with "(3)"; with
`helpfulCount = 0` it is the bare phrase plus separator. -/
theorem c8_helpful_label_count_witness :
    (NuggetCardInteraction Nat colorsWitness tWitness
      propsWitness).helpfulButton.text =
        some "loc:nugget.interaction.thatHelps (3)" ∧
    (NuggetCardInteraction Nat colorsWitness tWitness
      { propsWitness with helpfulCount := 0 }).helpfulButton.text =
        some "loc:nugget.interaction.thatHelps " := by
  constructor
  · exact (c8_helpful_label_count Nat colorsWitness tWitness propsWitness).1
      (by decide)
  · exact (c8_helpful_label_count Nat colorsWitness tWitness
      { propsWitness with helpfulCount := 0 }).2 rfl

/-- C9: `hideCommentButton` is optional and defaults to false: a rendering
with the prop omitted is identical to one with `false` passed explicitly, so
the comment control is present and the mark-helpful control keeps its normal
leading margin `spacing.m`. -/
theorem c9_hide_comment_button_defaults_false (α : Type) (colors : ThemeColors)
    (t : String → String) (p : NuggetCardInteractionProps α)
    (h : p.hideCommentButton = none) :
    NuggetCardInteraction α colors t p =
      NuggetCardInteraction α colors t { p with hideCommentButton := some false } ∧
    (∃ c, (NuggetCardInteraction α colors t p).commentButton = some c) ∧
    (NuggetCardInteraction α colors t p).helpfulButton.marginLeft = spacingM := by
  refine ⟨?_, ?_, ?_⟩
  · simp [NuggetCardInteraction, h]
  · simp [NuggetCardInteraction, h]
  · simp [NuggetCardInteraction, h]

/-- Witness for C9: on the witness props with the prop omitted, the rendering
equals the explicit-false rendering. -/
theorem c9_hide_comment_button_defaults_false_witness :
    NuggetCardInteraction Nat colorsWitness tWitness
        { propsWitness with hideCommentButton := none } =
      NuggetCardInteraction Nat colorsWitness tWitness
        { propsWitness with hideCommentButton := some false } ∧
    (NuggetCardInteraction Nat colorsWitness tWitness
      { propsWitness with hideCommentButton := none
        }).helpfulButton.marginLeft = spacingM := by
  have h := c9_hide_comment_button_defaults_false Nat colorsWitness tWitness
    { propsWitness with hideCommentButton := none } rfl
  exact ⟨h.1, h.2.2⟩

/-- C10: both counter branches test strict positivity, so every non-positive
count (zero or a negative reachable only by bypassing the type system)
renders identically to zero and never errs: the comment count text is empty
with the `no comments` label phrase, and the helpful label carries no
parenthetical count. -/
theorem c10_nonpositive_counts_render_as_zero (α : Type) (colors : ThemeColors)
    (t : String → String) (p : NuggetCardInteractionProps α) :
    (p.commentCount ≤ 0 →
      ∀ c : RenderedControl α,
        (NuggetCardInteraction α colors t p).commentButton = some c →
          c.text = some "" ∧
          c.accessibilityLabel =
            t "nugget.interaction.noComments" ++ " " ++
              t "nugget.interaction.comments") ∧
    (p.helpfulCount ≤ 0 →
      (NuggetCardInteraction α colors t p).helpfulButton.text =
        some (t "nugget.interaction.thatHelps" ++ " ")) := by
  constructor
  · intro hle c hc
    by_cases h : p.hideCommentButton.getD false
    · simp [NuggetCardInteraction, h] at hc
    · simp [NuggetCardInteraction, h] at hc
      rw [← hc]
      constructor
      · simp [show ¬0 < p.commentCount by omega]
      · simp [show ¬0 < p.commentCount by omega]
  · intro hle
    simp [NuggetCardInteraction, show ¬0 < p.helpfulCount by omega]

/-- Witness for C10: negative counts (-3 comments, -1 helpful) render exactly
like zero — empty count text, `no comments` label phrase, no parenthetical
count. -/
theorem c10_nonpositive_counts_render_as_zero_witness :
    (NuggetCardInteraction Nat colorsWitness tWitness
      { propsWitness with commentCount := -3, helpfulCount := -1
        }).commentButton.map RenderedControl.text = some (some "") ∧
    (NuggetCardInteraction Nat colorsWitness tWitness
      { propsWitness with commentCount := -3, helpfulCount := -1
        }).commentButton.map RenderedControl.accessibilityLabel =
      some "loc:nugget.interaction.noComments loc:nugget.interaction.comments" ∧
    (NuggetCardInteraction Nat colorsWitness tWitness
      { propsWitness with commentCount := -3, helpfulCount := -1
        }).helpfulButton.text = some "loc:nugget.interaction.thatHelps " := by
  have h := c10_nonpositive_counts_render_as_zero Nat colorsWitness tWitness
    { propsWitness with commentCount := -3, helpfulCount := -1 }
  cases hc : (NuggetCardInteraction Nat colorsWitness tWitness
      { propsWitness with commentCount := -3, helpfulCount := -1
        }).commentButton with
  | none => simp [NuggetCardInteraction, propsWitness] at hc
  | some c =>
      have hcc := h.1 (by decide) c hc
      exact ⟨by simp [hcc.1], by simp [hcc.2]; decide, h.2 (by decide)⟩

end DesignOnly
